import Mathlib

/-!
A verification development for the sales-reply-coach server
(`src/server/routers.ts`, `src/server/db.ts`).

The TypeScript source is embedded shallowly:

* machine state (the MySQL tables reached through drizzle) becomes an
  explicit `Store` record of rows, passed and returned by every
  operation that the source performs through `db.*`;
* the generation client (`invokeLLM` behind `callLLMWithRetry`) becomes
  an oracle argument: a value describing what each generation call
  returns, so theorems quantify over every possible upstream behaviour;
* a thrown JS exception becomes `Except.error msg`; because the
  persistence boundary is per-statement (no transaction), an operation
  that throws returns the store as mutated up to the throw point;
* JS numbers in the ranges used here are modelled as `Nat`, JS strings
  as `String`, nullable columns as `Option`.

Database helpers that the routers call but whose definitions are not
part of the source tree (`getOrCreateBrainStats`, `searchKnowledgeChunks`,
`deleteKnowledgeChunksBySource`, `createKnowledgeChunk(s)`,
`updateBrainStats`) are modelled from the specification and are marked
as such in their doc comments.
-/

deriving instance DecidableEq for Except

namespace SalesReplyCoach

/-! ## Rows of the data model (drizzle tables used by the routers) -/

/-- One row of `chat_messages` (src/drizzle migrations; `InsertChatMessage`). -/
structure ChatMessage where
  id : Nat
  prospectId : Nat
  userId : Nat
  direction : String
  content : String
  screenshotUrl : Option String := none
  threadType : Option String := none
  isAiSuggestion : Bool := false
  wasSent : Bool := false
  createdAt : Nat := 0
  deriving Repr, DecidableEq

/-- One row of `prospects`. -/
structure Prospect where
  id : Nat
  workspaceId : Nat
  userId : Nat
  name : String
  conversationStage : String
  replyMode : Option String := none
  outcome : Option String := none
  outcomeNotes : Option String := none
  profileAnalysis : Option String := none
  detectedInterests : Option String := none
  lastMessageAt : Option Nat := none
  deriving Repr, DecidableEq

/-- One row of `ai_suggestions`. -/
structure AiSuggestion where
  id : Nat
  messageId : Nat
  prospectId : Nat
  userId : Nat
  suggestionText : String
  suggestionType : String
  whyThisWorks : Option String := none
  pushyWarning : Option String := none
  wasUsed : Bool := false
  feedback : Option String := none
  deriving Repr, DecidableEq

/-- One row of `knowledge_chunks` (migration `0001_acoustic_diamondback.sql`). -/
structure KnowledgeChunk where
  id : Nat
  userId : Nat
  sourceId : Nat
  category : String
  content : String
  triggerPhrases : Option String := none
  usageExample : Option String := none
  relevanceScore : Nat := 50
  brainType : String := "both"
  deriving Repr, DecidableEq

/-- One row of `knowledge_base_items` (a Source Item), with the nine
structured summary fields written by `knowledgeBase.processItem`. -/
structure KnowledgeBaseItem where
  id : Nat
  userId : Nat
  workspaceId : Option Nat := none
  type : String
  title : String
  sourceUrl : String
  platform : Option String := none
  status : String
  processingProgress : Nat := 0
  errorMessage : Option String := none
  fullContent : Option String := none
  comprehensiveSummary : Option String := none
  salesPsychology : Option String := none
  rapportTechniques : Option String := none
  conversationStarters : Option String := none
  objectionFrameworks : Option String := none
  closingTechniques : Option String := none
  languagePatterns : Option String := none
  emotionalTriggers : Option String := none
  trustStrategies : Option String := none
  brainType : Option String := none
  deriving Repr, DecidableEq

/-- One row of `ai_brain_stats` (unique per `userId`); `totalSources` and
`totalChunks` are nullable ints with default 0, hence `Option Nat`. -/
structure BrainStats where
  userId : Nat
  totalSources : Option Nat := some 0
  totalChunks : Option Nat := some 0
  deriving Repr, DecidableEq

/-- One row of `workspaces` (only the fields the embedded routers read). -/
structure Workspace where
  id : Nat
  userId : Nat
  name : String
  nicheDescription : Option String := none
  profileAnalysis : Option String := none
  productsDetected : Option String := none
  isActive : Bool := false
  deriving Repr, DecidableEq

/-- The persisted state reached through `src/server/db.ts`.  `nextId`
models MySQL auto-increment (fresh ids for inserted rows), `now` a
monotone clock supplying `createdAt` / `lastMessageAt` timestamps. -/
structure Store where
  workspaces : List Workspace := []
  prospects : List Prospect := []
  chatMessages : List ChatMessage := []
  aiSuggestions : List AiSuggestion := []
  kbItems : List KnowledgeBaseItem := []
  chunks : List KnowledgeChunk := []
  brainStats : List BrainStats := []
  nextId : Nat := 1
  now : Nat := 0
  deriving Repr, DecidableEq

/-! ## db.ts: query helpers -/

/-- db.ts `getProspect`: select where `id` and `userId` match, limit 1. -/
def getProspect (id userId : Nat) (s : Store) : Option Prospect :=
  s.prospects.find? (fun p => p.id = id && p.userId = userId)

/-- db.ts `updateProspect`: update rows where `id` and `userId` match; the
partial `updates` object at each call site is passed as `f`. -/
def updateProspect (id userId : Nat) (f : Prospect → Prospect) (s : Store) : Store :=
  { s with prospects :=
      s.prospects.map (fun p => if p.id = id && p.userId = userId then f p else p) }

/-- db.ts `getWorkspace`: select where `id` and `userId` match, limit 1. -/
def getWorkspace (id userId : Nat) (s : Store) : Option Workspace :=
  s.workspaces.find? (fun w => w.id = id && w.userId = userId)

/-- The insert shape accepted by db.ts `createChatMessage`
(`InsertChatMessage` without the generated `id`/`createdAt`). -/
structure NewChatMessage where
  prospectId : Nat
  userId : Nat
  direction : String
  content : String
  screenshotUrl : Option String := none
  threadType : Option String := none
  isAiSuggestion : Bool := false
  wasSent : Bool := false
  deriving Repr, DecidableEq

/-- db.ts `createChatMessage`: inserts the row, then updates the owning
prospect's `lastMessageAt` scoped ONLY by `prospects.id = message.prospectId`
(no `userId` condition appears in the source).  Returns the insert id. -/
def createChatMessage (m : NewChatMessage) (s : Store) : Nat × Store :=
  let row : ChatMessage :=
    { id := s.nextId, prospectId := m.prospectId, userId := m.userId,
      direction := m.direction, content := m.content,
      screenshotUrl := m.screenshotUrl, threadType := m.threadType,
      isAiSuggestion := m.isAiSuggestion, wasSent := m.wasSent,
      createdAt := s.now }
  (s.nextId,
    { s with
      chatMessages := s.chatMessages ++ [row],
      prospects := s.prospects.map
        (fun p => if p.id = m.prospectId then { p with lastMessageAt := some s.now } else p),
      nextId := s.nextId + 1,
      now := s.now + 1 })

/-- Stable insertion into a list ordered by ascending `createdAt`
(models the SQL `ORDER BY createdAt`). -/
def insertByCreatedAt (m : ChatMessage) : List ChatMessage → List ChatMessage
  | [] => [m]
  | x :: xs =>
      if x.createdAt ≤ m.createdAt then x :: insertByCreatedAt m xs
      else m :: x :: xs

/-- Sort chat messages by ascending `createdAt`. -/
def sortByCreatedAt : List ChatMessage → List ChatMessage
  | [] => []
  | x :: xs => insertByCreatedAt x (sortByCreatedAt xs)

/-- The third argument of db.ts `getChatMessages` is declared
`limit = 100` (a number feeding the SQL `LIMIT`), but the routers pass the
requested thread type string in that position.  A JS value of either kind
can therefore arrive there. -/
inductive LimitArg where
  | num (n : Nat)
  | str (s : String)
  deriving Repr, DecidableEq

/-- Value of the leading digits of a character list, MySQL-style. -/
def leadingDigitsVal : List Char → Nat → Nat
  | [], acc => acc
  | c :: cs, acc => if c.isDigit then leadingDigitsVal cs (acc * 10 + (c.toNat - 48)) else acc

/-- The integer MySQL derives when a string reaches an integer context:
the value of its digits prefix, 0 for a non-numeric string.  Used to give
the string-typed `LIMIT` argument a semantics; the theorems below rely
only on the fact that every non-numeric string is treated uniformly. -/
def limitOfArg : LimitArg → Nat
  | .num n => n
  | .str s => leadingDigitsVal s.toList 0

/-- db.ts `getChatMessages`: select where `prospectId` and `userId` match,
ordered by `createdAt`, limited by the third argument.  No condition on
`threadType` exists in the query. -/
def getChatMessages (prospectId userId : Nat) (limit : LimitArg) (s : Store) :
    List ChatMessage :=
  ((sortByCreatedAt (s.chatMessages.filter
      (fun m => m.prospectId = prospectId && m.userId = userId))).take (limitOfArg limit))

/-- db.ts `getConversationContext`: all messages of the prospect (no
limit), ordered by `createdAt`, rendered as a transcript string. -/
def getConversationContext (prospectId userId : Nat) (s : Store) : String :=
  String.intercalate "\n\n"
    ((sortByCreatedAt (s.chatMessages.filter
        (fun m => m.prospectId = prospectId && m.userId = userId))).map
      (fun m => (if m.direction = "inbound" then "Prospect" else "You") ++ ": " ++ m.content))

/-- The insert shape accepted by db.ts `createAiSuggestion`. -/
structure NewAiSuggestion where
  messageId : Nat
  prospectId : Nat
  userId : Nat
  suggestionText : String
  suggestionType : String
  whyThisWorks : Option String := none
  pushyWarning : Option String := none
  deriving Repr, DecidableEq

/-- db.ts `createAiSuggestion`: insert, returning the insert id. -/
def createAiSuggestion (a : NewAiSuggestion) (s : Store) : Nat × Store :=
  let row : AiSuggestion :=
    { id := s.nextId, messageId := a.messageId, prospectId := a.prospectId,
      userId := a.userId, suggestionText := a.suggestionText,
      suggestionType := a.suggestionType, whyThisWorks := a.whyThisWorks,
      pushyWarning := a.pushyWarning }
  (s.nextId, { s with aiSuggestions := s.aiSuggestions ++ [row], nextId := s.nextId + 1 })

/-- db.ts `updateAiSuggestionUsage`: update where `id` and `userId` match. -/
def updateAiSuggestionUsage (id userId : Nat) (wasUsed : Bool) (s : Store) : Store :=
  { s with aiSuggestions :=
      s.aiSuggestions.map (fun a =>
        if a.id = id && a.userId = userId then { a with wasUsed := wasUsed } else a) }

/-- db.ts `getKnowledgeBaseItem`: select where `id` and `userId` match. -/
def getKnowledgeBaseItem (id userId : Nat) (s : Store) : Option KnowledgeBaseItem :=
  s.kbItems.find? (fun it => it.id = id && it.userId = userId)

/-- db.ts `updateKnowledgeBaseItem`: update rows where `id` and `userId`
match; the partial `updates` object at each call site is passed as `f`. -/
def updateKbItem (id userId : Nat) (f : KnowledgeBaseItem → KnowledgeBaseItem) (s : Store) :
    Store :=
  { s with kbItems :=
      s.kbItems.map (fun it => if it.id = id && it.userId = userId then f it else it) }

/-- db.ts `getReadyKnowledgeBaseContent`: owner's `ready` items, then
filtered in JS by workspace (matching or global) and brain type (matching
or `both`). -/
def getReadyKnowledgeBaseContent (userId : Nat) (brainType : Option String)
    (workspaceId : Option Nat) (s : Store) : List KnowledgeBaseItem :=
  let ready := s.kbItems.filter (fun it => it.userId = userId && it.status = "ready")
  let byWs := match workspaceId with
    | some w => ready.filter (fun it => it.workspaceId = some w || it.workspaceId = none)
    | none => ready
  match brainType with
  | some bt => byWs.filter (fun it => it.brainType = some bt || it.brainType = some "both")
  | none => byWs

/-! ## Spec-modelled persistence helpers

The definitions of these db helpers are not in the source tree; only
their call sites are.  Each is modelled from the specification. -/

/-- Modelled from the spec: `db.getOrCreateBrainStats` is not under the
source tree.  Per §3 Brain Statistics is one row per owner; a
get-or-create read returns the owner's row, inserting a fresh row with
zero counts when none exists. -/
def getOrCreateBrainStats (userId : Nat) (s : Store) : BrainStats × Store :=
  match s.brainStats.find? (fun b => b.userId = userId) with
  | some b => (b, s)
  | none =>
      let row : BrainStats := { userId := userId, totalSources := some 0, totalChunks := some 0 }
      (row, { s with brainStats := s.brainStats ++ [row] })

/-- Modelled from the spec: `db.updateBrainStats` is not under the source
tree.  Per §3/§5, Brain Statistics is fully recomputed from the current
Knowledge Store for that owner (total sources, total chunks). -/
def updateBrainStats (userId : Nat) (s : Store) : Store :=
  let sources := (s.kbItems.filter (fun it => it.userId = userId)).length
  let total := (s.chunks.filter (fun c => c.userId = userId)).length
  match s.brainStats.find? (fun b => b.userId = userId) with
  | some _ =>
      { s with brainStats := s.brainStats.map (fun b =>
          if b.userId = userId then
            { b with totalSources := some sources, totalChunks := some total } else b) }
  | none =>
      { s with brainStats :=
          s.brainStats ++ [{ userId := userId, totalSources := some sources,
                             totalChunks := some total }] }

/-- Stable insertion into a list ordered by descending `relevanceScore`. -/
def insertByScoreDesc (c : KnowledgeChunk) : List KnowledgeChunk → List KnowledgeChunk
  | [] => [c]
  | x :: xs =>
      if c.relevanceScore ≤ x.relevanceScore then x :: insertByScoreDesc c xs
      else c :: x :: xs

/-- Sort knowledge chunks by descending `relevanceScore`. -/
def sortByScoreDesc : List KnowledgeChunk → List KnowledgeChunk
  | [] => []
  | x :: xs => insertByScoreDesc x (sortByScoreDesc xs)

/-- Modelled from the spec: `db.searchKnowledgeChunks` is not under the
source tree.  Per §4.6 it queries the Knowledge Store filtered by owner,
persona (the specific value or the shared `both` value) and category
membership in the mapped list, returning a ranked top-`limit` set. -/
def searchKnowledgeChunks (userId : Nat) (categories : List String)
    (brainType : String) (limit : Nat) (s : Store) : List KnowledgeChunk :=
  ((sortByScoreDesc (s.chunks.filter (fun c =>
      c.userId = userId &&
      (c.brainType = brainType || c.brainType = "both") &&
      categories.contains c.category))).take limit)

/-- Modelled from the spec: `db.deleteKnowledgeChunksBySource` is not
under the source tree.  Per §4.3 all existing chunks for the source are
deleted before new ones are inserted; per §5 every store write is scoped
by owner identity. -/
def deleteKnowledgeChunksBySource (sourceId userId : Nat) (s : Store) : Store :=
  { s with chunks :=
      s.chunks.filter (fun c => !(c.sourceId = sourceId && c.userId = userId)) }

/-- The insert shape for a knowledge chunk (fields supplied by the
routers at each `createKnowledgeChunk(s)` call site). -/
structure NewKnowledgeChunk where
  userId : Nat
  sourceId : Nat
  category : String
  content : String
  triggerPhrases : Option String := none
  usageExample : Option String := none
  relevanceScore : Nat := 50
  brainType : String := "both"
  deriving Repr, DecidableEq

/-- Modelled from the spec: `db.createKnowledgeChunk` is not under the
source tree.  Inserts one chunk row (§3 Knowledge Chunk). -/
def createKnowledgeChunk (c : NewKnowledgeChunk) (s : Store) : Store :=
  let row : KnowledgeChunk :=
    { id := s.nextId, userId := c.userId, sourceId := c.sourceId,
      category := c.category, content := c.content,
      triggerPhrases := c.triggerPhrases, usageExample := c.usageExample,
      relevanceScore := c.relevanceScore, brainType := c.brainType }
  { s with chunks := s.chunks ++ [row], nextId := s.nextId + 1 }

/-- Modelled from the spec: `db.createKnowledgeChunks` is not under the
source tree.  Batch insert of chunk rows (§3: created in batches by the
Knowledge Distiller). -/
def createKnowledgeChunks (l : List NewKnowledgeChunk) (s : Store) : Store :=
  l.foldl (fun st c => createKnowledgeChunk c st) s

/-! ## routers.ts: `getRelevantCategories` (Retrieval Selector) -/

/-- routers.ts lines 102-114: the fixed stage-to-category map, with the
`general` row as fallback for any unmapped stage string. -/
def getRelevantCategories (contextType : String) : List String :=
  if contextType = "first_contact" then
    ["opening_lines", "rapport_building", "psychology_insight"]
  else if contextType = "warm_rapport" then
    ["rapport_building", "pain_discovery", "language_pattern"]
  else if contextType = "pain_discovery" then
    ["pain_discovery", "emotional_trigger", "psychology_insight"]
  else if contextType = "objection_resistance" then
    ["objection_handling", "trust_building", "psychology_insight"]
  else if contextType = "trust_reinforcement" then
    ["trust_building", "language_pattern", "psychology_insight"]
  else if contextType = "referral_to_expert" then
    ["closing_techniques", "trust_building"]
  else if contextType = "expert_close" then
    ["closing_techniques", "objection_handling", "psychology_insight"]
  else
    ["general_wisdom", "language_pattern", "psychology_insight"]

/-! ## routers.ts: `callLLMWithRetry` (Retry Coordinator) -/

/-- What one resolved `invokeLLM` promise can carry: either a value whose
top-level shape fails the `result && result.choices && Array.isArray`
check, or a response with a choices array (each choice's
`message?.content`, when it is a string). -/
inductive LLMValue where
  | malformed
  | response (choices : List (Option String))
  deriving Repr, DecidableEq

/-- One `invokeLLM` invocation either resolves with a value or rejects
with an error message. -/
inductive LLMOutcome where
  | resolved (v : LLMValue)
  | rejected (msg : String)
  deriving Repr, DecidableEq

/-- Whether one character list starts with another. -/
def charsStartWith : List Char → List Char → Bool
  | [], _ => true
  | _ :: _, [] => false
  | p :: ps, c :: cs => p = c && charsStartWith ps cs

/-- Whether a character list contains another as a contiguous run. -/
def charsHaveSub (pat : List Char) : List Char → Bool
  | [] => charsStartWith pat []
  | c :: cs => charsStartWith pat (c :: cs) || charsHaveSub pat cs

/-- JS `String.prototype.includes`. -/
def containsSub (s pat : String) : Bool := charsHaveSub pat.toList s.toList

/-- The user-facing message substituted for an HTML-error-page failure. -/
def unavailableMsg : String :=
  "AI service is temporarily unavailable. Please try again in a few minutes."

/-- routers.ts lines 84-89: an error whose message looks like an HTML
page (or a JSON parse complaint) is rewritten to the user-facing
`temporarily unavailable` message; anything else is kept verbatim. -/
def classifyLLMError (msg : String) : String :=
  if containsSub msg "<html" || containsSub msg "<!DOCTYPE" ||
      containsSub msg "not valid JSON" then unavailableMsg
  else msg

/-- The structural-validity throw message (routers.ts line 77). -/
def invalidStructureMsg : String := "Invalid response structure from AI service"

/-- One iteration of the retry loop body: invoke, validate the shape,
classify any failure (routers.ts lines 74-89). -/
def attemptOutcome (invoke : Nat → LLMOutcome) (k : Nat) :
    Except String (List (Option String)) :=
  match invoke k with
  | .resolved .malformed => .error (classifyLLMError invalidStructureMsg)
  | .resolved (.response cs) => .ok cs
  | .rejected msg => .error (classifyLLMError msg)

/-- The retry loop from attempt index `k` with `remaining` further
attempts allowed, also counting how many `invokeLLM` invocations were
issued.  The backoff waits (pure delays) are not observable state and
are elided. -/
def callFrom (invoke : Nat → LLMOutcome) (k : Nat) :
    Nat → Except String (List (Option String)) × Nat
  | 0 => (attemptOutcome invoke k, 1)
  | n + 1 =>
      match attemptOutcome invoke k with
      | .ok cs => (.ok cs, 1)
      | .error _ =>
          let r := callFrom invoke (k + 1) n
          (r.1, r.2 + 1)

/-- routers.ts `callLLMWithRetry(params, maxRetries = 2)`: up to
`maxRetries + 1` invocations; returns the first structurally valid
response, or raises the last classified error once attempts are
exhausted.  The second component counts `invokeLLM` invocations. -/
def callLLMWithRetry (invoke : Nat → LLMOutcome) (maxRetries : Nat := 2) :
    Except String (List (Option String)) × Nat :=
  callFrom invoke 0 maxRetries

/-! ## routers.ts: chat.sendInbound (Suggestion Generator pipeline)

The two generation-call sites inside `sendInbound` are abstracted by an
oracle carrying the result of each `callLLMWithRetry` call (error after
exhausted retries, or the returned content) together with the outcome of
the `JSON.parse` the router applies to structured content.  Prompt
strings influence only what is sent upstream, which the oracle
abstracts; the retrieval reads that feed them are kept as reads. -/

/-- JS `x || "friend"`: `null`/missing and the empty string are falsy. -/
def jsOr (v : Option String) (d : String) : String :=
  match v with
  | some x => if x = "" then d else x
  | none => d

/-- The eight fields of the `chat_analysis` response schema
(routers.ts lines 782-793), all required, `pushyWarning` nullable. -/
structure ChatAnalysis where
  contextType : String
  detectedTone : String
  primaryReply : String
  alternativeReply : String
  softReply : String
  whyThisWorks : String
  knowledgeUsed : String
  pushyWarning : Option String := none
  deriving Repr, DecidableEq

/-- Upstream behaviour of one `sendInbound` request.

`stageCall`: result of the stage-detection `callLLMWithRetry` — an error
propagated after retries, or `choices[0]?.message?.content` (`none` when
the content is absent or not a string).

`suggestionCall`: result of the suggestion-generation `callLLMWithRetry`;
on success, the outcome of `JSON.parse` on its content — either a parse
exception message or the parsed `chat_analysis` object. -/
structure SendInboundOracle where
  stageCall : Except String (Option String)
  suggestionCall : Except String (Except String ChatAnalysis)
  deriving Repr, DecidableEq

/-- The empty-knowledge-base gate error (routers.ts line 671). -/
def emptyBrainMsg : String :=
  "Your AI brain is empty! Please upload sales training books or videos first to train your AI. Go to Knowledge Base and add content."

/-- Result payload of a successful `sendInbound` (routers.ts 838-847). -/
structure SendInboundResult where
  messageId : Nat
  contextType : String
  detectedTone : String
  pushyWarning : Option String
  knowledgeUsed : String
  suggestionIds : List Nat
  deriving Repr, DecidableEq

/-- routers.ts lines 677-848: everything after the empty-knowledge-base
gate.  Mirrors the source order: stage detection, retrieval reads,
persist the inbound message, suggestion generation and parse, stage
mirror update, three suggestion inserts.  The third component counts
`callLLMWithRetry` call sites reached (zero such calls means zero
generation-client invocations). -/
def sendInboundAfterGate (o : SendInboundOracle) (uid prospectId : Nat)
    (content : String) (screenshotUrl : Option String) (threadType : String)
    (prospect : Prospect) (s : Store) :
    Except String SendInboundResult × Store × Nat :=
  let _workspace := getWorkspace prospect.workspaceId uid s
  let _conversationContext := getConversationContext prospectId uid s
  match o.stageCall with
  | .error e => (.error e, s, 1)
  | .ok stageContent =>
    let detectedStage := match stageContent with
      | some c => c.trim.toLower
      | none => "general"
    let relevantCategories := getRelevantCategories detectedStage
    let _knowledgeChunks :=
      searchKnowledgeChunks uid relevantCategories (jsOr prospect.replyMode "friend") 8 s
    let _knowledgeItems :=
      getReadyKnowledgeBaseContent uid (some (jsOr prospect.replyMode "friend"))
        (some prospect.workspaceId) s
    let created := createChatMessage
      { prospectId := prospectId, userId := uid, direction := "inbound",
        content := content, screenshotUrl := screenshotUrl,
        threadType := some threadType } s
    let messageId := created.1
    let s1 := created.2
    match o.suggestionCall with
    | .error e => (.error e, s1, 2)
    | .ok (.error e) => (.error e, s1, 2)
    | .ok (.ok analysis) =>
      let s2 := updateProspect prospectId uid
        (fun p => { p with conversationStage := analysis.contextType }) s1
      let prim := createAiSuggestion
        { messageId := messageId, prospectId := prospectId, userId := uid,
          suggestionText := analysis.primaryReply, suggestionType := "primary",
          whyThisWorks := some (analysis.whyThisWorks ++ "\n\nKnowledge Used: " ++
            analysis.knowledgeUsed),
          pushyWarning := analysis.pushyWarning } s2
      let alt := createAiSuggestion
        { messageId := messageId, prospectId := prospectId, userId := uid,
          suggestionText := analysis.alternativeReply,
          suggestionType := "alternative" } prim.2
      let soft := createAiSuggestion
        { messageId := messageId, prospectId := prospectId, userId := uid,
          suggestionText := analysis.softReply, suggestionType := "soft" } alt.2
      (.ok { messageId := messageId, contextType := analysis.contextType,
             detectedTone := analysis.detectedTone,
             pushyWarning := analysis.pushyWarning,
             knowledgeUsed := analysis.knowledgeUsed,
             suggestionIds := [prim.1, alt.1, soft.1] }, soft.2, 2)

/-- routers.ts lines 657-848, `chat.sendInbound`: prospect lookup, the
empty-knowledge-base gate, then the post-gate pipeline. -/
def sendInbound (o : SendInboundOracle) (uid prospectId : Nat) (content : String)
    (screenshotUrl : Option String) (threadType : String) (s : Store) :
    Except String SendInboundResult × Store × Nat :=
  match getProspect prospectId uid s with
  | none => (.error "Prospect not found", s, 0)
  | some prospect =>
    let g := getOrCreateBrainStats uid s
    if g.1.totalChunks.getD 0 = 0 then (.error emptyBrainMsg, g.2, 0)
    else sendInboundAfterGate o uid prospectId content screenshotUrl threadType prospect g.2

/-! ## routers.ts: chat.sendOutbound -/

/-- routers.ts lines 850-874, `chat.sendOutbound`: inserts the outbound
message (no prospect lookup, hence no ownership check on `prospectId`),
then flags suggestion usage when a truthy `suggestionId` was given.
Never throws. -/
def sendOutbound (uid prospectId : Nat) (content : String)
    (suggestionId : Option Nat) (isAiSuggestion : Bool) (threadType : String)
    (s : Store) : Nat × Store :=
  let created := createChatMessage
    { prospectId := prospectId, userId := uid, direction := "outbound",
      content := content, isAiSuggestion := isAiSuggestion, wasSent := true,
      threadType := some threadType } s
  let s1 := match suggestionId with
    | some sid => if sid ≠ 0 then updateAiSuggestionUsage sid uid true created.2 else created.2
    | none => created.2
  (created.1, s1)

/-! ## routers.ts: chat.getMessages and prospect.get -/

/-- routers.ts lines 587-594, `chat.getMessages`: forwards the requested
thread type string as the third argument of `db.getChatMessages` (whose
declared third parameter is the row limit). -/
def chatGetMessages (uid prospectId : Nat) (threadType : String) (s : Store) :
    List ChatMessage :=
  getChatMessages prospectId uid (.str threadType) s

/-- routers.ts lines 281-291, `prospect.get`: prospect lookup plus the
same forwarding of the thread type string into the limit position. -/
def prospectGet (uid prospectId : Nat) (threadType : String) (s : Store) :
    Except String (Prospect × List ChatMessage) :=
  match getProspect prospectId uid s with
  | none => .error "Prospect not found"
  | some p => .ok (p, getChatMessages prospectId uid (.str threadType) s)

/-! ## routers.ts: prospect.updateOutcome (Continuous Learning Extractor) -/

/-- One `{technique, why_it_worked, how_to_apply}` triple of the
`learning_patterns` response schema. -/
structure LearnedPattern where
  technique : String
  whyItWorked : String
  howToApply : String
  deriving Repr, DecidableEq

/-- Upstream behaviour of the learning extraction: the
`callLLMWithRetry` result; on success the `JSON.parse` outcome — a parse
exception, or the parsed object (`none` when it carries no `patterns`
array, otherwise the triples). -/
structure LearningOracle where
  learningCall : Except String (Except String (Option (List LearnedPattern)))
  deriving Repr, DecidableEq

/-- JS truthiness of an optional string input (`if (input.outcome) ...`):
missing and empty string are falsy. -/
def truthyStr : Option String → Bool
  | some v => v ≠ ""
  | none => false

/-- routers.ts lines 479-482: the message list handed to the learning
extraction — the `friend`-thread query concatenated with the
`expert`-thread query, each issued through `db.getChatMessages` with the
persona string in the limit position. -/
def wonTranscriptSource (uid prospectId : Nat) (s : Store) : List ChatMessage :=
  getChatMessages prospectId uid (.str "friend") s ++
    getChatMessages prospectId uid (.str "expert") s

/-- The transcript string built from the concatenated message list
(routers.ts lines 485-487). -/
def wonTranscript (msgs : List ChatMessage) : String :=
  String.intercalate "\n"
    (msgs.map (fun m =>
      (if m.direction = "inbound" then "Prospect" else "You") ++ ": " ++ m.content))

/-- routers.ts lines 461-575, `prospect.updateOutcome`: apply the truthy
field updates; on outcome `won`, fetch both persona threads, and when
any messages came back run the pattern extraction inside a try/catch
that swallows every failure, storing each triple as a `general_wisdom` /
`both` / relevance-80 chunk with the sentinel `sourceId = 0` and then
recomputing brain stats.  The third component counts learning-side
`callLLMWithRetry` call sites reached. -/
def updateOutcome (o : LearningOracle) (uid id : Nat)
    (outcome outcomeNotes replyMode : Option String) (s : Store) :
    Except String Unit × Store × Nat :=
  let upd := fun (p : Prospect) =>
    let p := if truthyStr outcome then { p with outcome := outcome } else p
    let p := if truthyStr outcomeNotes then { p with outcomeNotes := outcomeNotes } else p
    if truthyStr replyMode then { p with replyMode := replyMode } else p
  let s0 := updateProspect id uid upd s
  if outcome = some "won" then
    match getProspect id uid s0 with
    | none => (.ok (), s0, 0)
    | some _ =>
      let allMessages := wonTranscriptSource uid id s0
      if allMessages.length > 0 then
        let _conversationText := wonTranscript allMessages
        match o.learningCall with
        | .error _ => (.ok (), s0, 1)
        | .ok (.error _) => (.ok (), s0, 1)
        | .ok (.ok none) => (.ok (), s0, 1)
        | .ok (.ok (some patterns)) =>
          let s1 := patterns.foldl (fun st p =>
            createKnowledgeChunk
              { userId := uid, sourceId := 0, category := "general_wisdom",
                content := p.technique ++ "\n\nWhy it worked: " ++ p.whyItWorked ++
                  "\n\nHow to apply: " ++ p.howToApply,
                triggerPhrases := some p.technique, relevanceScore := 80,
                brainType := "both" } st) s0
          (.ok (), updateBrainStats uid s1, 1)
      else (.ok (), s0, 0)
  else (.ok (), s0, 0)

/-! ## routers.ts: knowledgeBase.processItem (ingestion pipeline) -/

/-- The nine-field structured summary of the `deep_learning_summary`
response schema (routers.ts lines 1142-1156). -/
structure DeepSummary where
  comprehensiveSummary : String
  salesPsychology : String
  rapportTechniques : String
  conversationStarters : String
  objectionFrameworks : String
  closingTechniques : String
  languagePatterns : String
  emotionalTriggers : String
  trustStrategies : String
  deriving Repr, DecidableEq

/-- One entry of the `knowledge_chunks` response schema
(routers.ts lines 1209-1222). -/
structure ChunkData where
  category : String
  content : String
  triggerPhrases : String
  usageExample : String
  deriving Repr, DecidableEq

/-- Upstream behaviour of one `processItem` run.

`extractCall`: the extraction `callLLMWithRetry` result; on success the
content (`none` when absent or not a string, which the router turns into
the empty string).

`summaryCall`: the summary `callLLMWithRetry` result; on success the
`JSON.parse` outcome (a parse failure triggers the degraded-summary
fallback).

`chunkCall`: the chunk `callLLMWithRetry` result; on success the
`JSON.parse` outcome — parse failure falls back to an empty chunk set,
and a parsed object may also carry no `chunks` array (`none`). -/
structure ProcessOracle where
  extractCall : Except String (Option String)
  summaryCall : Except String (Except String DeepSummary)
  chunkCall : Except String (Except String (Option (List ChunkData)))
  deriving Repr, DecidableEq

/-- The degraded summary used when the summary response fails to parse
(routers.ts lines 1166-1176): first 500 characters of the full text,
`Not extracted` everywhere else. -/
def fallbackSummary (fullContent : String) : DeepSummary :=
  { comprehensiveSummary := fullContent.take 500,
    salesPsychology := "Not extracted", rapportTechniques := "Not extracted",
    conversationStarters := "Not extracted", objectionFrameworks := "Not extracted",
    closingTechniques := "Not extracted", languagePatterns := "Not extracted",
    emotionalTriggers := "Not extracted", trustStrategies := "Not extracted" }

/-- Writing the nine summary fields onto the Source Item row
(the `{...summary, processingProgress: 70}` update). -/
def applySummary (sm : DeepSummary) (it : KnowledgeBaseItem) : KnowledgeBaseItem :=
  { it with
    comprehensiveSummary := some sm.comprehensiveSummary,
    salesPsychology := some sm.salesPsychology,
    rapportTechniques := some sm.rapportTechniques,
    conversationStarters := some sm.conversationStarters,
    objectionFrameworks := some sm.objectionFrameworks,
    closingTechniques := some sm.closingTechniques,
    languagePatterns := some sm.languagePatterns,
    emotionalTriggers := some sm.emotionalTriggers,
    trustStrategies := some sm.trustStrategies }

/-- Result payload of a successful `processItem` (routers.ts 1268-1273). -/
structure ProcessResult where
  summary : DeepSummary
  chunksExtracted : Nat
  brainStats : BrainStats
  deriving Repr, DecidableEq

/-- The chunk-row inserts built from the parsed chunk data
(routers.ts lines 1244-1253). -/
def chunkInsertsOf (uid sourceId : Nat) (item : KnowledgeBaseItem)
    (l : List ChunkData) : List NewKnowledgeChunk :=
  l.map (fun c =>
    { userId := uid, sourceId := sourceId, category := c.category,
      content := c.content, triggerPhrases := some c.triggerPhrases,
      usageExample := some c.usageExample, relevanceScore := 50,
      brainType := jsOr item.brainType "both" })

/-- routers.ts lines 1043-1108: the extraction step.  A `url` or `pdf`
item issues one generation call (its content, when not a string, becomes
the empty string); any other stored type matches neither branch, issues
no call, and leaves the content empty. -/
def extractStep (o : ProcessOracle) (item : KnowledgeBaseItem) : Except String String :=
  if item.type = "url" then o.extractCall.map (fun c => c.getD "")
  else if item.type = "pdf" then o.extractCall.map (fun c => c.getD "")
  else .ok ""

/-- routers.ts lines 1115-1117: the deterministic placeholder used when
the extracted content is empty or whitespace-only. -/
def placeholderContent (title : String) : String :=
  "Content from: " ++ title ++ ". Unable to extract detailed content."

/-- routers.ts lines 1161-1177: the parsed summary, or the degraded
fallback when `JSON.parse` threw. -/
def summaryOf (parsed : Except String DeepSummary) (fullContent : String) : DeepSummary :=
  match parsed with
  | .ok sm => sm
  | .error _ => fallbackSummary fullContent

/-- routers.ts lines 1232-1238: the chunk list recovered from the chunk
response — the parsed `chunks` array, an empty list when `JSON.parse`
threw (the `'{"chunks":[]}'` fallback), and an empty effective list when
the parsed object carries no `chunks` array. -/
def chunksOf (cparsed : Except String (Option (List ChunkData))) : List ChunkData :=
  match cparsed with
  | .ok (some l) => l
  | .ok none => []
  | .error _ => []

/-- routers.ts lines 1240-1266: the tail of a successful run — progress
90, the conditional batch insert of the parsed chunks, the brain-stats
recomputation, the `ready`/100 write, and the final stats read for the
payload. -/
def finishRun (uid id : Nat) (item : KnowledgeBaseItem) (chunks : List ChunkData)
    (s : Store) : BrainStats × Store :=
  let s1 := updateKbItem id uid (fun it => { it with processingProgress := 90 }) s
  let s2 :=
    if chunks.length > 0 then
      createKnowledgeChunks (chunkInsertsOf uid id item chunks) s1
    else s1
  let s3 := updateBrainStats uid s2
  let s4 := updateKbItem id uid
    (fun it => { it with status := "ready", processingProgress := 100 }) s3
  getOrCreateBrainStats uid s4

/-- routers.ts lines 1037-1273: the `try` body of `processItem`.  Mirrors
the source order: extraction, persisting the raw content at progress 40,
the empty-content placeholder, the 12000-character truncation, the
summary step with its degraded fallback, progress 75, the
delete-then-insert chunk step, and the success tail. -/
def processItemBody (o : ProcessOracle) (uid id : Nat) (item : KnowledgeBaseItem)
    (s : Store) : Except String ProcessResult × Store :=
  let s := updateKbItem id uid (fun it => { it with processingProgress := 10 }) s
  match extractStep o item with
  | .error e => (.error e, s)
  | .ok rawContent =>
    let s := updateKbItem id uid
      (fun it => { it with fullContent := some rawContent, processingProgress := 40 }) s
    let fullContent :=
      if rawContent.trim.length = 0 then placeholderContent item.title else rawContent
    let _truncatedContent :=
      if fullContent.length > 12000 then fullContent.take 12000 ++ "... [content truncated]"
      else fullContent
    let s := updateKbItem id uid (fun it => { it with processingProgress := 50 }) s
    match o.summaryCall with
    | .error e => (.error e, s)
    | .ok parsed =>
      let summary := summaryOf parsed fullContent
      let s := updateKbItem id uid
        (fun it => applySummary summary { it with processingProgress := 70 }) s
      let s := updateKbItem id uid (fun it => { it with processingProgress := 75 }) s
      let s := deleteKnowledgeChunksBySource id uid s
      match o.chunkCall with
      | .error e => (.error e, s)
      | .ok cparsed =>
        let chunks := chunksOf cparsed
        let g := finishRun uid id item chunks s
        (.ok { summary := summary, chunksExtracted := chunks.length,
               brainStats := g.1 }, g.2)

/-- The failure handler (routers.ts lines 1274-1279): status `failed`
and the error message, nothing else — `processingProgress` is untouched. -/
def markFailed (id uid : Nat) (e : String) (s : Store) : Store :=
  updateKbItem id uid (fun it => { it with status := "failed", errorMessage := some e }) s

/-- The initial `processing`/5 write (routers.ts lines 1032-1035). -/
def processingStart (uid id : Nat) (s : Store) : Store :=
  updateKbItem id uid
    (fun it => { it with status := "processing", processingProgress := 5 }) s

/-- routers.ts lines 1026-1281, `knowledgeBase.processItem`: item lookup,
the initial `processing`/5 write, then the body; a body exception is
caught, the failure status persisted, and the same exception re-raised. -/
def processItem (o : ProcessOracle) (uid id : Nat) (s : Store) :
    Except String ProcessResult × Store :=
  match getKnowledgeBaseItem id uid s with
  | none => (.error "Item not found", s)
  | some item =>
    match processItemBody o uid id item (processingStart uid id s) with
    | (.ok v, s2) => (.ok v, s2)
    | (.error e, s2) => (.error e, markFailed id uid e s2)

/-- The number of knowledge chunks stored for one owner's source. -/
def chunkCountFor (uid sourceId : Nat) (s : Store) : Nat :=
  (s.chunks.filter (fun c => c.sourceId = sourceId && c.userId = uid)).length

/-- Whether an `Except` value is a success. -/
def exIsOk : Except String α → Bool
  | .ok _ => true
  | .error _ => false

/-! ## Theorems -/

/-- C7: `getRelevantCategories` maps `objection_resistance` to exactly
the set containing objection handling, trust building and psychology
insight, and maps every string outside the seven named stages plus
`general` to the general mapping instead of raising. -/
theorem getRelevantCategories_objection_and_default :
    (∀ c, c ∈ getRelevantCategories "objection_resistance" ↔
      c ∈ ["objection_handling", "trust_building", "psychology_insight"]) ∧
    (∀ stage : String,
      stage ∉ ["first_contact", "warm_rapport", "pain_discovery", "objection_resistance",
        "trust_reinforcement", "referral_to_expert", "expert_close", "general"] →
      getRelevantCategories stage =
        ["general_wisdom", "language_pattern", "psychology_insight"]) := by
  constructor
  · intro c
    rfl
  · intro stage h
    simp only [List.mem_cons, List.not_mem_nil, or_false, not_or] at h
    obtain ⟨h1, h2, h3, h4, h5, h6, h7, _⟩ := h
    simp [getRelevantCategories, h1, h2, h3, h4, h5, h6, h7]

/-- Witness for C7's fallback clause at the concrete stage string
`objection handling` (not one of the eight mapped keys). -/
theorem getRelevantCategories_default_witness :
    ("objection handling" ∉ ["first_contact", "warm_rapport", "pain_discovery",
        "objection_resistance", "trust_reinforcement", "referral_to_expert",
        "expert_close", "general"]) ∧
      getRelevantCategories "objection handling" =
        ["general_wisdom", "language_pattern", "psychology_insight"] :=
  ⟨by decide,
    getRelevantCategories_objection_and_default.2 "objection handling" (by decide)⟩

/-- C3: at the default budget (`maxRetries = 2`, i.e. three attempts),
a wrapped function failing twice and succeeding on the third invocation
yields exactly 3 invocations and the third invocation's response; a
wrapped function failing on every invocation yields exactly 3
invocations and raises the third attempt's classified error (the last
one), never a partial result. -/
theorem callLLMWithRetry_default_budget (invoke : Nat → LLMOutcome) :
    (∀ cs, exIsOk (attemptOutcome invoke 0) = false →
      exIsOk (attemptOutcome invoke 1) = false →
      invoke 2 = .resolved (.response cs) →
      callLLMWithRetry invoke = (.ok cs, 3)) ∧
    (exIsOk (attemptOutcome invoke 0) = false →
      exIsOk (attemptOutcome invoke 1) = false →
      exIsOk (attemptOutcome invoke 2) = false →
      callLLMWithRetry invoke = (attemptOutcome invoke 2, 3)) := by
  have err : ∀ k, exIsOk (attemptOutcome invoke k) = false →
      ∃ m, attemptOutcome invoke k = .error m := by
    intro k hk
    cases h : attemptOutcome invoke k with
    | ok v => rw [h] at hk; simp [exIsOk] at hk
    | error m => exact ⟨m, rfl⟩
  constructor
  · intro cs h0 h1 h2
    obtain ⟨m0, e0⟩ := err 0 h0
    obtain ⟨m1, e1⟩ := err 1 h1
    have e2 : attemptOutcome invoke 2 = .ok cs := by
      simp [attemptOutcome, h2]
    simp [callLLMWithRetry, callFrom, e0, e1, e2]
  · intro h0 h1 h2
    obtain ⟨m0, e0⟩ := err 0 h0
    obtain ⟨m1, e1⟩ := err 1 h1
    obtain ⟨m2, e2⟩ := err 2 h2
    simp [callLLMWithRetry, callFrom, e0, e1, e2]

/-- Witness for C3 at two concrete wrapped functions: one rejecting
twice then resolving with a one-choice response, one rejecting at every
invocation with an HTML error page (whose classified form is the
`temporarily unavailable` message). -/
theorem callLLMWithRetry_default_budget_witness :
    callLLMWithRetry (fun k =>
        if k < 2 then .rejected "boom" else .resolved (.response [some "hi"])) =
      (.ok [some "hi"], 3) ∧
    callLLMWithRetry (fun _ => .rejected "<html> 502") =
      (.error unavailableMsg, 3) :=
  ⟨(callLLMWithRetry_default_budget _).1 [some "hi"] (by decide) (by decide) (by decide),
    by
      have h := (callLLMWithRetry_default_budget
        (fun _ => .rejected "<html> 502")).2 (by decide) (by decide) (by decide)
      rw [h]
      decide⟩

/-- Rewriting one chat message's `threadType` through `g`, leaving all
other columns alone. -/
def setThreadType (g : Option String → Option String) (m : ChatMessage) : ChatMessage :=
  { m with threadType := g m.threadType }

/-- Rewriting every stored chat message's `threadType` through `g`. -/
def remapThreadTypes (g : Option String → Option String) (s : Store) : Store :=
  { s with chatMessages := s.chatMessages.map (setThreadType g) }

theorem filter_map_comm (f : ChatMessage → ChatMessage) (p : ChatMessage → Bool)
    (hf : ∀ m, p (f m) = p m) :
    ∀ l : List ChatMessage, (l.map f).filter p = (l.filter p).map f := by
  intro l
  induction l with
  | nil => rfl
  | cons x xs ih =>
    by_cases h : p x = true
    · simp [List.filter, hf, h, ih]
    · simp only [Bool.not_eq_true] at h
      simp [List.filter, hf, h, ih]

theorem insertByCreatedAt_map (f : ChatMessage → ChatMessage)
    (hf : ∀ m, (f m).createdAt = m.createdAt) (m : ChatMessage) :
    ∀ l : List ChatMessage,
      insertByCreatedAt (f m) (l.map f) = (insertByCreatedAt m l).map f := by
  intro l
  induction l with
  | nil => rfl
  | cons x xs ih =>
    by_cases h : x.createdAt ≤ m.createdAt
    · simp [insertByCreatedAt, hf, h, ih]
    · simp [insertByCreatedAt, hf, h]

theorem sortByCreatedAt_map (f : ChatMessage → ChatMessage)
    (hf : ∀ m, (f m).createdAt = m.createdAt) :
    ∀ l : List ChatMessage, sortByCreatedAt (l.map f) = (sortByCreatedAt l).map f := by
  intro l
  induction l with
  | nil => rfl
  | cons x xs ih => simp [sortByCreatedAt, ih, insertByCreatedAt_map f hf]

/-- C9: the thread-type argument of `chat.getMessages` and `prospect.get`
has no effect — `db.getChatMessages` treats its third parameter as a row
limit and applies no `threadType` filter, so the `friend` and `expert`
requests return the same rows, and the returned rows do not depend on
the stored messages' thread types at all (rewriting every message's
`threadType` just rewrites it in the result). -/
theorem threadType_has_no_effect :
    (∀ (s : Store) (uid pid : Nat),
      chatGetMessages uid pid "friend" s = chatGetMessages uid pid "expert" s) ∧
    (∀ (s : Store) (uid pid : Nat),
      prospectGet uid pid "friend" s = prospectGet uid pid "expert" s) ∧
    (∀ (g : Option String → Option String) (s : Store) (pid uid : Nat) (la : LimitArg),
      getChatMessages pid uid la (remapThreadTypes g s) =
        (getChatMessages pid uid la s).map (setThreadType g)) := by
  have hcoerce : limitOfArg (.str "friend") = limitOfArg (.str "expert") := by decide
  refine ⟨?_, ?_, ?_⟩
  · intro s uid pid
    simp only [chatGetMessages, getChatMessages, hcoerce]
  · intro s uid pid
    simp only [prospectGet, getChatMessages, hcoerce]
  · intro g s pid uid la
    unfold getChatMessages remapThreadTypes
    rw [filter_map_comm (setThreadType g)
        (fun m => decide (m.prospectId = pid) && decide (m.userId = uid)) (fun _ => rfl),
      sortByCreatedAt_map (setThreadType g) (fun _ => rfl), List.map_take]

/-- C10: `chat.sendOutbound` performs no ownership check, and
`db.createChatMessage` updates `lastMessageAt` scoped only by prospect
id.  A request by user `uid` naming a prospect owned by someone else
succeeds, appends a message row for that prospect, and rewrites the
other owner's prospect record. -/
theorem sendOutbound_no_ownership_check
    (s : Store) (uid : Nat) (p : Prospect) (content tt : String)
    (hp : p ∈ s.prospects) ( _hown : p.userId ≠ uid)
    (hlm : p.lastMessageAt ≠ some s.now) :
    (∃ m ∈ (sendOutbound uid p.id content none false tt s).2.chatMessages,
      m.id = (sendOutbound uid p.id content none false tt s).1 ∧
      m.prospectId = p.id ∧ m.userId = uid ∧ m.direction = "outbound" ∧
      m.content = content) ∧
    { p with lastMessageAt := some s.now } ∈
      (sendOutbound uid p.id content none false tt s).2.prospects ∧
    p ∉ (sendOutbound uid p.id content none false tt s).2.prospects := by
  refine ⟨?_, ?_, ?_⟩
  · refine ⟨{ id := s.nextId, prospectId := p.id, userId := uid, direction := "outbound",
               content := content, screenshotUrl := none, threadType := some tt,
               isAiSuggestion := false, wasSent := true, createdAt := s.now },
      ?_, rfl, rfl, rfl, rfl, rfl⟩
    simp [sendOutbound, createChatMessage]
  · simp only [sendOutbound, createChatMessage]
    refine List.mem_map.2 ⟨p, hp, ?_⟩
    simp
  · simp only [sendOutbound, createChatMessage]
    intro hmem
    obtain ⟨q, hq, hqe⟩ := List.mem_map.1 hmem
    by_cases h : q.id = p.id
    · rw [if_pos h] at hqe
      exact hlm (by rw [← hqe])
    · rw [if_neg h] at hqe
      exact h (by rw [hqe])

/-- A prospect owned by user 2, used as a concrete fixture. -/
def otherOwnersProspect : Prospect :=
  { id := 7, workspaceId := 1, userId := 2, name := "Bob",
    conversationStage := "first_contact" }

/-- A concrete store holding only `otherOwnersProspect`. -/
def crossOwnerStore : Store :=
  { prospects := [otherOwnersProspect], nextId := 10, now := 5 }

/-- Witness for C10: in `crossOwnerStore` prospect 7 belongs to user 2,
while user 1 issues the outbound send. -/
theorem sendOutbound_no_ownership_check_witness :
    (∃ m ∈ (sendOutbound 1 otherOwnersProspect.id "hi" none false "friend"
        crossOwnerStore).2.chatMessages,
      m.id = (sendOutbound 1 otherOwnersProspect.id "hi" none false "friend"
        crossOwnerStore).1 ∧
      m.prospectId = otherOwnersProspect.id ∧ m.userId = 1 ∧ m.direction = "outbound" ∧
      m.content = "hi") ∧
    { otherOwnersProspect with lastMessageAt := some crossOwnerStore.now } ∈
      (sendOutbound 1 otherOwnersProspect.id "hi" none false "friend"
        crossOwnerStore).2.prospects ∧
    otherOwnersProspect ∉
      (sendOutbound 1 otherOwnersProspect.id "hi" none false "friend"
        crossOwnerStore).2.prospects :=
  sendOutbound_no_ownership_check crossOwnerStore 1 otherOwnersProspect "hi" "friend"
    (by decide) (by decide) (by decide)

/-! ### Store-preservation lemmas for the ingestion pipeline -/

theorem getOrCreateBrainStats_kbItems (uid : Nat) (s : Store) :
    (getOrCreateBrainStats uid s).2.kbItems = s.kbItems := by
  unfold getOrCreateBrainStats
  cases s.brainStats.find? (fun b => b.userId = uid) <;> rfl

theorem getOrCreateBrainStats_chunks (uid : Nat) (s : Store) :
    (getOrCreateBrainStats uid s).2.chunks = s.chunks := by
  unfold getOrCreateBrainStats
  cases s.brainStats.find? (fun b => b.userId = uid) <;> rfl

theorem updateBrainStats_kbItems (uid : Nat) (s : Store) :
    (updateBrainStats uid s).kbItems = s.kbItems := by
  unfold updateBrainStats
  cases s.brainStats.find? (fun b => b.userId = uid) <;> rfl

theorem updateBrainStats_chunks (uid : Nat) (s : Store) :
    (updateBrainStats uid s).chunks = s.chunks := by
  unfold updateBrainStats
  cases s.brainStats.find? (fun b => b.userId = uid) <;> rfl

theorem updateKbItem_chunks (id uid : Nat) (f : KnowledgeBaseItem → KnowledgeBaseItem)
    (s : Store) : (updateKbItem id uid f s).chunks = s.chunks := rfl

theorem updateKbItem_nextId (id uid : Nat) (f : KnowledgeBaseItem → KnowledgeBaseItem)
    (s : Store) : (updateKbItem id uid f s).nextId = s.nextId := rfl

theorem delete_chunks_nextId (id uid : Nat) (s : Store) :
    (deleteKnowledgeChunksBySource id uid s).nextId = s.nextId := rfl

theorem chunkCountFor_updateKbItem (uid id i u : Nat)
    (f : KnowledgeBaseItem → KnowledgeBaseItem) (s : Store) :
    chunkCountFor uid id (updateKbItem i u f s) = chunkCountFor uid id s := rfl

theorem chunkCountFor_updateBrainStats (uid id u : Nat) (s : Store) :
    chunkCountFor uid id (updateBrainStats u s) = chunkCountFor uid id s := by
  unfold chunkCountFor updateBrainStats
  cases s.brainStats.find? (fun b => b.userId = u) <;> rfl

theorem chunkCountFor_getOrCreateBrainStats (uid id u : Nat) (s : Store) :
    chunkCountFor uid id (getOrCreateBrainStats u s).2 = chunkCountFor uid id s := by
  unfold chunkCountFor
  rw [getOrCreateBrainStats_chunks]

theorem mem_createKnowledgeChunks (l : List NewKnowledgeChunk) :
    ∀ (s : Store) (c : KnowledgeChunk), c ∈ (createKnowledgeChunks l s).chunks →
      c ∈ s.chunks ∨ s.nextId ≤ c.id := by
  induction l with
  | nil => intro s c h; exact .inl h
  | cons a rest ih =>
    intro s c h
    rcases ih (createKnowledgeChunk a s) c h with h1 | h2
    · rcases List.mem_append.1 h1 with hm | hm
      · exact .inl hm
      · right
        rw [List.mem_singleton.1 hm]
    · right
      exact Nat.le_of_succ_le h2

theorem chunkCountFor_createKnowledgeChunks (uid id : Nat) (l : List NewKnowledgeChunk) :
    ∀ s : Store, (∀ c ∈ l, c.sourceId = id ∧ c.userId = uid) →
      chunkCountFor uid id (createKnowledgeChunks l s) = chunkCountFor uid id s + l.length := by
  induction l with
  | nil => intro s _; rfl
  | cons a rest ih =>
    intro s hl
    have ha := hl a (List.mem_cons_self a rest)
    have hstep : chunkCountFor uid id (createKnowledgeChunk a s) =
        chunkCountFor uid id s + 1 := by
      unfold chunkCountFor createKnowledgeChunk
      simp [List.filter_append, ha.1, ha.2]
    have hrest := ih (createKnowledgeChunk a s) (fun c hc => hl c (List.mem_cons_of_mem a hc))
    calc chunkCountFor uid id (createKnowledgeChunks (a :: rest) s)
        = chunkCountFor uid id (createKnowledgeChunk a s) + rest.length := hrest
      _ = chunkCountFor uid id s + (a :: rest).length := by rw [hstep, List.length_cons]; omega

theorem filter_of_filter_not (p : KnowledgeChunk → Bool) :
    ∀ l : List KnowledgeChunk, (l.filter (fun c => !(p c))).filter p = [] := by
  intro l
  induction l with
  | nil => rfl
  | cons x xs ih =>
    by_cases hx : p x = true
    · simp [List.filter, hx, ih]
    · simp only [Bool.not_eq_true] at hx
      simp [List.filter, hx, ih]

theorem chunkCountFor_delete (uid id : Nat) (s : Store) :
    chunkCountFor uid id (deleteKnowledgeChunksBySource id uid s) = 0 := by
  show (List.filter (fun c => decide (c.sourceId = id) && decide (c.userId = uid))
      (List.filter (fun c => !(decide (c.sourceId = id) && decide (c.userId = uid)))
        s.chunks)).length = 0
  rw [filter_of_filter_not]
  rfl

theorem chunkInsertsOf_scoped (uid id : Nat) (item : KnowledgeBaseItem)
    (chunks : List ChunkData) :
    ∀ c ∈ chunkInsertsOf uid id item chunks, c.sourceId = id ∧ c.userId = uid := by
  intro c hc
  obtain ⟨d, _, hde⟩ := List.mem_map.1 hc
  rw [← hde]
  exact ⟨rfl, rfl⟩

theorem finishRun_chunks_mem (uid id : Nat) (item : KnowledgeBaseItem)
    (chunks : List ChunkData) (s : Store) (c : KnowledgeChunk)
    (h : c ∈ (finishRun uid id item chunks s).2.chunks) :
    c ∈ s.chunks ∨ s.nextId ≤ c.id := by
  simp only [finishRun] at h
  rw [getOrCreateBrainStats_chunks, updateKbItem_chunks, updateBrainStats_chunks] at h
  by_cases hl : chunks.length > 0
  · rw [if_pos hl] at h
    rcases mem_createKnowledgeChunks _ _ c h with h1 | h2
    · exact .inl h1
    · exact .inr h2
  · rw [if_neg hl] at h
    exact .inl h

theorem chunkCountFor_finishRun (uid id : Nat) (item : KnowledgeBaseItem)
    (chunks : List ChunkData) (s : Store) (h0 : chunkCountFor uid id s = 0) :
    chunkCountFor uid id (finishRun uid id item chunks s).2 = chunks.length := by
  simp only [finishRun]
  rw [chunkCountFor_getOrCreateBrainStats, chunkCountFor_updateKbItem,
    chunkCountFor_updateBrainStats]
  by_cases hl : chunks.length > 0
  · rw [if_pos hl,
      chunkCountFor_createKnowledgeChunks uid id _ _ (chunkInsertsOf_scoped uid id item chunks),
      chunkCountFor_updateKbItem, h0]
    simp [chunkInsertsOf]
  · rw [if_neg hl, chunkCountFor_updateKbItem, h0]
    omega

theorem finishRun_ready (uid id : Nat) (item : KnowledgeBaseItem)
    (chunks : List ChunkData) (s : Store) :
    ∀ it ∈ (finishRun uid id item chunks s).2.kbItems, it.id = id → it.userId = uid →
      it.status = "ready" ∧ it.processingProgress = 100 := by
  intro it hmem hid huid
  simp only [finishRun] at hmem
  rw [getOrCreateBrainStats_kbItems] at hmem
  simp only [updateKbItem] at hmem
  obtain ⟨q, _, hqe⟩ := List.mem_map.1 hmem
  by_cases hq1 : q.id = id
  · by_cases hq2 : q.userId = uid
    · rw [if_pos (by simp [hq1, hq2])] at hqe
      rw [← hqe]
      exact ⟨rfl, rfl⟩
    · rw [if_neg (by simp [hq2])] at hqe
      rw [hqe] at hq2
      exact absurd huid hq2
  · rw [if_neg (by simp [hq1])] at hqe
    rw [hqe] at hq1
    exact absurd hid hq1

/-- Structure of every successful `processItem` run: the final store is
the success tail applied after the delete-by-source, over an
intermediate store whose chunk table and id counter are those of the
initial store, and the reported `chunksExtracted` is the length of the
parsed chunk list. -/
theorem processItem_ok_shape (o : ProcessOracle) (uid id : Nat) (s : Store)
    (v : ProcessResult) (h : (processItem o uid id s).1 = .ok v) :
    ∃ (item : KnowledgeBaseItem) (chunks : List ChunkData) (s0 : Store),
      (processItem o uid id s).2 =
        (finishRun uid id item chunks (deleteKnowledgeChunksBySource id uid s0)).2 ∧
      v.chunksExtracted = chunks.length ∧
      s0.chunks = s.chunks ∧ s0.nextId = s.nextId := by
  unfold processItem at h ⊢
  cases hfind : getKnowledgeBaseItem id uid s with
  | none => rw [hfind] at h; simp at h
  | some item =>
    rw [hfind] at h
    dsimp only at h ⊢
    unfold processItemBody at h ⊢
    cases hex : extractStep o item with
    | error e => rw [hex] at h; simp at h
    | ok rawContent =>
      rw [hex] at h
      dsimp only at h ⊢
      cases hsum : o.summaryCall with
      | error e => rw [hsum] at h; simp at h
      | ok parsed =>
        rw [hsum] at h
        dsimp only at h ⊢
        cases hchunk : o.chunkCall with
        | error e => rw [hchunk] at h; simp at h
        | ok cparsed =>
          rw [hchunk] at h
          dsimp only at h ⊢
          refine ⟨item, chunksOf cparsed, _, rfl, ?_, rfl, rfl⟩
          simp only [Except.ok.injEq] at h
          rw [← h]

/-- C6: every exception raised inside the `processItem` body is caught;
the item's status becomes `failed` with the error message persisted, the
failure handler leaves every item's `processingProgress` exactly as the
body left it, and the same exception is re-raised to the caller. -/
theorem processItem_failure_handler (o : ProcessOracle) (uid id : Nat) (s : Store)
    (item : KnowledgeBaseItem) (e : String)
    (hfind : getKnowledgeBaseItem id uid s = some item)
    (hbody : (processItemBody o uid id item (processingStart uid id s)).1 = .error e) :
    (processItem o uid id s).1 = .error e ∧
    (processItem o uid id s).2 =
      markFailed id uid e (processItemBody o uid id item (processingStart uid id s)).2 ∧
    ((processItem o uid id s).2.kbItems.map (fun it => it.processingProgress)) =
      ((processItemBody o uid id item (processingStart uid id s)).2.kbItems.map
        (fun it => it.processingProgress)) ∧
    (∀ it ∈ (processItem o uid id s).2.kbItems, it.id = id → it.userId = uid →
      it.status = "failed" ∧ it.errorMessage = some e) := by
  have hsplit : processItem o uid id s =
      (.error e, markFailed id uid e
        (processItemBody o uid id item (processingStart uid id s)).2) := by
    unfold processItem
    rw [hfind]
    dsimp only
    cases hpb : processItemBody o uid id item (processingStart uid id s) with
    | mk r s2 =>
      rw [hpb] at hbody
      cases r with
      | ok v => cases hbody
      | error e2 =>
        simp only at hbody
        cases hbody
        rfl
  refine ⟨by rw [hsplit], by rw [hsplit], ?_, ?_⟩
  · rw [hsplit]
    show ((markFailed id uid e _).kbItems.map (fun it => it.processingProgress)) = _
    unfold markFailed updateKbItem
    simp only [List.map_map]
    apply List.map_congr_left
    intro q _
    by_cases hq : q.id = id ∧ q.userId = uid
    · simp [hq]
    · simp [hq]
  · rw [hsplit]
    intro it hmem hid huid
    simp only [markFailed, updateKbItem] at hmem
    obtain ⟨q, _, hqe⟩ := List.mem_map.1 hmem
    by_cases hq1 : q.id = id
    · by_cases hq2 : q.userId = uid
      · rw [if_pos (by simp [hq1, hq2])] at hqe
        rw [← hqe]
        exact ⟨rfl, rfl⟩
      · rw [if_neg (by simp [hq2])] at hqe
        rw [hqe] at hq2
        exact absurd huid hq2
    · rw [if_neg (by simp [hq1])] at hqe
      rw [hqe] at hq1
      exact absurd hid hq1

/-- A pending Source Item used as a concrete fixture. -/
def pendingItem : KnowledgeBaseItem :=
  { id := 1, userId := 1, type := "url", title := "Closing Techniques 101",
    sourceUrl := "https://youtube.com/watch?v=abc", status := "pending" }

/-- A store holding `pendingItem` and one stale chunk from an earlier
run of the same source. -/
def ingestStore : Store :=
  { kbItems := [pendingItem],
    chunks := [{ id := 3, userId := 1, sourceId := 1, category := "general_wisdom",
                 content := "old advice" }],
    nextId := 4 }

/-- A fully successful summary fixture. -/
def okSummary : DeepSummary :=
  { comprehensiveSummary := "s", salesPsychology := "p", rapportTechniques := "r",
    conversationStarters := "c", objectionFrameworks := "o", closingTechniques := "cl",
    languagePatterns := "l", emotionalTriggers := "e", trustStrategies := "t" }

/-- An oracle whose extraction call fails after retries. -/
def failingExtractOracle : ProcessOracle :=
  { extractCall := .error "AI service is temporarily unavailable. Please try again in a few minutes.",
    summaryCall := .error "unused", chunkCall := .error "unused" }

/-- Witness for C6: a concrete run whose extraction call fails. -/
theorem processItem_failure_handler_witness :
    (processItem failingExtractOracle 1 1 ingestStore).1 =
      .error "AI service is temporarily unavailable. Please try again in a few minutes." ∧
    (processItem failingExtractOracle 1 1 ingestStore).2 =
      markFailed 1 1 "AI service is temporarily unavailable. Please try again in a few minutes."
        (processItemBody failingExtractOracle 1 1 pendingItem
          (processingStart 1 1 ingestStore)).2 ∧
    ((processItem failingExtractOracle 1 1 ingestStore).2.kbItems.map
        (fun it => it.processingProgress)) =
      ((processItemBody failingExtractOracle 1 1 pendingItem
          (processingStart 1 1 ingestStore)).2.kbItems.map
        (fun it => it.processingProgress)) ∧
    (∀ it ∈ (processItem failingExtractOracle 1 1 ingestStore).2.kbItems,
      it.id = 1 → it.userId = 1 →
      it.status = "failed" ∧ it.errorMessage =
        some "AI service is temporarily unavailable. Please try again in a few minutes.") :=
  processItem_failure_handler failingExtractOracle 1 1 ingestStore pendingItem _
    (by decide) (by decide)

/-- C4 (amended): on every `processItem` run that completes without
raising, the item's final status is `ready`, its progress is 100, and
the number of chunks stored for that source equals the parsed chunk
count reported in the payload (0 when chunk parsing fell back); the code
imposes no upper bound on that count. -/
theorem processItem_success_state (o : ProcessOracle) (uid id : Nat) (s : Store)
    (v : ProcessResult) (h : (processItem o uid id s).1 = .ok v) :
    (∀ it ∈ (processItem o uid id s).2.kbItems, it.id = id → it.userId = uid →
      it.status = "ready" ∧ it.processingProgress = 100) ∧
    chunkCountFor uid id (processItem o uid id s).2 = v.chunksExtracted := by
  obtain ⟨item, chunks, s0, hst, hlen, _, _⟩ := processItem_ok_shape o uid id s v h
  constructor
  · rw [hst]
    exact finishRun_ready uid id item chunks _
  · rw [hst, hlen]
    exact chunkCountFor_finishRun uid id item chunks _ (chunkCountFor_delete uid id s0)

/-- An oracle for a fully successful run whose chunk response parses to
26 chunks — more than the 15-25 range the prompt requests. -/
def oversizedChunkOracle : ProcessOracle :=
  { extractCall := .ok (some "lots of sales wisdom"),
    summaryCall := .ok (.ok okSummary),
    chunkCall := .ok (.ok (some (List.replicate 26
      { category := "general_wisdom", content := "tip", triggerPhrases := "t",
        usageExample := "u" }))) }

/-- Counterexample to C4 as stated: a run that completes without raising
yet stores 26 chunks for the source — the claimed `0 ≤ count ≤ 25`
envelope is violated because the code never bounds the parsed array. -/
theorem processItem_chunk_bound_counterexample :
    exIsOk (processItem oversizedChunkOracle 1 1 ingestStore).1 = true ∧
    chunkCountFor 1 1 (processItem oversizedChunkOracle 1 1 ingestStore).2 = 26 ∧
    ¬ chunkCountFor 1 1 (processItem oversizedChunkOracle 1 1 ingestStore).2 ≤ 25 := by
  refine ⟨by decide, by decide, by decide⟩

/-- Witness for C4 (amended) at a concrete successful run extracting 26
chunks. -/
theorem processItem_success_state_witness :
    (∀ it ∈ (processItem oversizedChunkOracle 1 1 ingestStore).2.kbItems,
      it.id = 1 → it.userId = 1 →
      it.status = "ready" ∧ it.processingProgress = 100) ∧
    chunkCountFor 1 1 (processItem oversizedChunkOracle 1 1 ingestStore).2 =
      (ProcessResult.mk okSummary 26
        { userId := 1, totalSources := some 1, totalChunks := some 26 }).chunksExtracted :=
  processItem_success_state oversizedChunkOracle 1 1 ingestStore _ (by decide)

/-- C5: re-processing is idempotent per source — on every completed
`processItem` run, no chunk row from a previous run of that owner's
source survives (all are deleted before the new inserts, and every
inserted row carries a fresh id). -/
theorem processItem_no_stale_chunks (o : ProcessOracle) (uid id : Nat) (s : Store)
    (v : ProcessResult) (c : KnowledgeChunk) (h : (processItem o uid id s).1 = .ok v)
    ( _hc : c ∈ s.chunks) (hsrc : c.sourceId = id) (hown : c.userId = uid)
    (hfresh : c.id < s.nextId) :
    c ∉ (processItem o uid id s).2.chunks := by
  obtain ⟨item, chunks, s0, hst, _, hch, hnx⟩ := processItem_ok_shape o uid id s v h
  rw [hst]
  intro hmem
  rcases finishRun_chunks_mem uid id item chunks _ c hmem with h1 | h2
  · have := List.mem_filter.1 h1
    simp [hsrc, hown] at this
  · rw [delete_chunks_nextId, hnx] at h2
    omega

/-- Witness for C5: the stale chunk of `ingestStore` (id 3, left by an
earlier run of source 1) is gone after the successful re-process. -/
theorem processItem_no_stale_chunks_witness :
    ({ id := 3, userId := 1, sourceId := 1, category := "general_wisdom",
       content := "old advice" } : KnowledgeChunk) ∉
      (processItem oversizedChunkOracle 1 1 ingestStore).2.chunks :=
  processItem_no_stale_chunks oversizedChunkOracle 1 1 ingestStore
    (ProcessResult.mk okSummary 26
      { userId := 1, totalSources := some 1, totalChunks := some 26 })
    { id := 3, userId := 1, sourceId := 1, category := "general_wisdom",
      content := "old advice" }
    (by decide) (by decide) (by decide) (by decide) (by decide)

/-- C2: whenever the owner's Brain Statistics row shows a zero chunk
total (including the case where the row was absent and get-or-create
made a fresh zero row), `chat.sendInbound` fails with the
empty-knowledge-base error before reaching any generation call site —
the call-site counter is 0, so zero generation-client invocations
occur. -/
theorem sendInbound_empty_brain_gate (o : SendInboundOracle) (uid pid : Nat)
    (content : String) (scr : Option String) (tt : String) (s : Store) (p : Prospect)
    (hp : getProspect pid uid s = some p)
    (hz : (getOrCreateBrainStats uid s).1.totalChunks.getD 0 = 0) :
    sendInbound o uid pid content scr tt s =
      (.error emptyBrainMsg, (getOrCreateBrainStats uid s).2, 0) := by
  unfold sendInbound
  rw [hp]
  dsimp only
  rw [if_pos hz]

/-- A prospect owned by user 1, used as a concrete fixture. -/
def annProspect : Prospect :=
  { id := 1, workspaceId := 1, userId := 1, name := "Ann",
    conversationStage := "first_contact" }

/-- A store with a prospect but no Brain Statistics row (so the
get-or-create read yields a fresh zero row). -/
def emptyBrainStore : Store :=
  { prospects := [annProspect], nextId := 5, now := 9 }

/-- Witness for C2 at a concrete store whose owner has no Brain
Statistics row at all. -/
theorem sendInbound_empty_brain_gate_witness :
    sendInbound { stageCall := .ok (some "general"), suggestionCall := .error "unused" }
        1 1 "hello" none "friend" emptyBrainStore =
      (.error emptyBrainMsg, (getOrCreateBrainStats 1 emptyBrainStore).2, 0) :=
  sendInbound_empty_brain_gate _ 1 1 "hello" none "friend" emptyBrainStore annProspect
    (by decide) (by decide)

/-- A store whose owner has a non-empty knowledge base, so the gate
passes. -/
def gateOpenStore : Store :=
  { prospects := [annProspect],
    brainStats := [{ userId := 1, totalSources := some 1, totalChunks := some 3 }],
    nextId := 5, now := 9 }

/-- An oracle whose stage detection succeeds and whose
suggestion-generation call fails after retries. -/
def failingSuggestionOracle : SendInboundOracle :=
  { stageCall := .ok (some "general"), suggestionCall := .error "boom" }

/-- Counterexample to C1 as stated: when the suggestion-generation step
fails after the gate passed, the error does propagate, but a new inbound
chat-message row HAS been persisted (the router stores the inbound
message before issuing the generation call), so the state is not
unchanged on error. -/
theorem sendInbound_partial_persistence_counterexample :
    (sendInbound failingSuggestionOracle 1 1 "hello" none "friend" gateOpenStore).1 =
      .error "boom" ∧
    (sendInbound failingSuggestionOracle 1 1 "hello" none "friend"
        gateOpenStore).2.1.chatMessages.length =
      gateOpenStore.chatMessages.length + 1 ∧
    ¬ (sendInbound failingSuggestionOracle 1 1 "hello" none "friend"
        gateOpenStore).2.1.chatMessages = gateOpenStore.chatMessages := by
  refine ⟨by decide, by decide, by decide⟩

/-- C1 (amended): when the suggestion-generation step fails (the
generation call errors after retries, or its output fails to parse)
after the empty-knowledge-base gate has passed and stage detection
returned, the error propagates synchronously; no Suggestion rows are
persisted, no knowledge chunks or items change, and every prospect's
mirrored stage is unchanged — but the inbound chat-message row, written
before the generation call, remains persisted. -/
theorem sendInbound_generation_failure_state (o : SendInboundOracle) (uid pid : Nat)
    (content : String) (scr : Option String) (tt : String) (s : Store) (p : Prospect)
    (e : String) (c : Option String)
    (hp : getProspect pid uid s = some p)
    (hnz : (getOrCreateBrainStats uid s).1.totalChunks.getD 0 ≠ 0)
    (hstage : o.stageCall = .ok c)
    (hfail : o.suggestionCall = .error e ∨ o.suggestionCall = .ok (.error e)) :
    (sendInbound o uid pid content scr tt s).1 = .error e ∧
    (sendInbound o uid pid content scr tt s).2.1.aiSuggestions = s.aiSuggestions ∧
    ((sendInbound o uid pid content scr tt s).2.1.prospects.map
        (fun q => (q.id, q.conversationStage))) =
      (s.prospects.map (fun q => (q.id, q.conversationStage))) ∧
    (sendInbound o uid pid content scr tt s).2.1.chunks = s.chunks ∧
    (sendInbound o uid pid content scr tt s).2.1.kbItems = s.kbItems ∧
    (sendInbound o uid pid content scr tt s).2.1.chatMessages =
      s.chatMessages ++ [{ id := s.nextId, prospectId := pid, userId := uid,
                           direction := "inbound", content := content,
                           screenshotUrl := scr, threadType := some tt,
                           isAiSuggestion := false, wasSent := false,
                           createdAt := s.now }] := by
  have hgs : getOrCreateBrainStats uid s = ((getOrCreateBrainStats uid s).1, s) := by
    unfold getOrCreateBrainStats at hnz ⊢
    cases hfind : s.brainStats.find? (fun b => b.userId = uid) with
    | some b => rfl
    | none => rw [hfind] at hnz; simp at hnz
  have hrun : sendInbound o uid pid content scr tt s =
      (.error e,
        (createChatMessage { prospectId := pid, userId := uid,
                             direction := "inbound", content := content,
                             screenshotUrl := scr, threadType := some tt } s).2, 2) := by
    unfold sendInbound
    rw [hp]
    dsimp only
    rw [if_neg hnz]
    unfold sendInboundAfterGate
    rw [hgs]
    dsimp only
    rw [hstage]
    dsimp only
    rcases hfail with hf | hf <;> rw [hf]
  rw [hrun]
  refine ⟨rfl, rfl, ?_, rfl, rfl, rfl⟩
  show ((s.prospects.map fun q =>
      if q.id = pid then { q with lastMessageAt := some s.now } else q).map
        fun q => (q.id, q.conversationStage)) = _
  rw [List.map_map]
  apply List.map_congr_left
  intro q _
  by_cases hq : q.id = pid
  · simp [hq]
  · simp [hq]

/-- Witness for C1 (amended) at the concrete failing run of the
counterexample. -/
theorem sendInbound_generation_failure_state_witness :
    (sendInbound failingSuggestionOracle 1 1 "hello" none "friend" gateOpenStore).1 =
      .error "boom" ∧
    (sendInbound failingSuggestionOracle 1 1 "hello" none "friend"
        gateOpenStore).2.1.aiSuggestions = gateOpenStore.aiSuggestions ∧
    ((sendInbound failingSuggestionOracle 1 1 "hello" none "friend"
        gateOpenStore).2.1.prospects.map (fun q => (q.id, q.conversationStage))) =
      (gateOpenStore.prospects.map (fun q => (q.id, q.conversationStage))) ∧
    (sendInbound failingSuggestionOracle 1 1 "hello" none "friend"
        gateOpenStore).2.1.chunks = gateOpenStore.chunks ∧
    (sendInbound failingSuggestionOracle 1 1 "hello" none "friend"
        gateOpenStore).2.1.kbItems = gateOpenStore.kbItems ∧
    (sendInbound failingSuggestionOracle 1 1 "hello" none "friend"
        gateOpenStore).2.1.chatMessages =
      gateOpenStore.chatMessages ++
        [{ id := gateOpenStore.nextId, prospectId := 1, userId := 1,
           direction := "inbound", content := "hello", screenshotUrl := none,
           threadType := some "friend", isAiSuggestion := false, wasSent := false,
           createdAt := gateOpenStore.now }] :=
  sendInbound_generation_failure_state failingSuggestionOracle 1 1 "hello" none "friend"
    gateOpenStore annProspect "boom" (some "general") (by decide) (by decide) (by decide)
    (.inl (by decide))

/-- A prospect of user 1 with one message in each persona thread. -/
def wonProspect : Prospect :=
  { id := 1, workspaceId := 1, userId := 1, name := "Cal",
    conversationStage := "expert_close" }

/-- A store where prospect 1 has two chat messages, one tagged for each
persona thread. -/
def wonStore : Store :=
  { prospects := [wonProspect],
    chatMessages :=
      [{ id := 1, prospectId := 1, userId := 1, direction := "inbound",
         content := "m1", threadType := some "friend", createdAt := 0 },
       { id := 2, prospectId := 1, userId := 1, direction := "outbound",
         content := "m2", threadType := some "expert", createdAt := 1 }],
    nextId := 3, now := 2 }

/-- C8 (code bug): marking this prospect `won` never hands its messages
to the learning extraction.  The router passes the persona strings into
`db.getChatMessages`'s row-limit parameter, so both per-thread queries
return no rows; the concatenated transcript source is empty, the
`allMessages.length > 0` guard fails, zero learning calls are issued and
no chunks are stored — although the prospect has two messages. -/
theorem updateOutcome_won_learning_never_runs :
    (updateOutcome { learningCall := .error "unused" } 1 1 (some "won") none none
        wonStore).1 = .ok () ∧
    (updateOutcome { learningCall := .error "unused" } 1 1 (some "won") none none
        wonStore).2.2 = 0 ∧
    (updateOutcome { learningCall := .error "unused" } 1 1 (some "won") none none
        wonStore).2.1.chunks = [] ∧
    (wonStore.chatMessages.filter (fun m => m.prospectId = 1 && m.userId = 1)).length = 2 ∧
    wonTranscriptSource 1 1 wonStore = [] := by
  refine ⟨by decide, by decide, by decide, by decide, by decide⟩

end SalesReplyCoach
